import Mathlib

/-!
Shallow embedding of the KmerCart backend order/cart engine.

The embedding follows the TypeScript source:
- `OrdersService` (createOrder, updateOrderStatus, cancelOrder,
  getVendorOrderStats, generateOrderNumber) from the orders service file;
- `CartService.syncCart` / `CartService.validateCartItems` from
  `src/modules/cart/cart.service.ts`.

Modelling conventions:
- Mongo documents become Lean structures; object ids become `Nat`.
- JS numbers carrying money become `Rat`; stock, quantities and the
  cumulative sales counter become `Int` (Mongo `$inc` is unrestricted).
- `Date` timestamps become a `now : Nat` parameter threaded by the caller.
- A thrown Nest exception becomes `Except.error` carrying the error kind;
  stateful methods return the result together with the (possibly updated)
  database, so that "no mutation on failure" is an actual statement about
  the returned state.
- `addedAt` fields on cart items are omitted: no modelled behaviour reads
  them.
-/

namespace KmerCart

/-- Order statuses, from the order schema (values as used by the service:
PENDING, CONFIRMED, PROCESSING, SHIPPED, DELIVERED, CANCELLED). -/
inductive OrderStatus
  | pending
  | confirmed
  | processing
  | shipped
  | delivered
  | cancelled
  deriving DecidableEq, Repr

/-- Error kinds thrown by the services (Nest exception classes plus the
message that distinguishes them). -/
inductive Err
  | emptyCart            -- BadRequest "Cart is empty"
  | productUnavailable   -- BadRequest "... no longer available"
  | insufficientStock    -- BadRequest "Insufficient stock ..."
  | notFound             -- NotFoundException
  | forbidden            -- ForbiddenException "Access denied"
  | cannotCancel         -- BadRequest "Order cannot be cancelled at this stage"
  deriving DecidableEq, Repr

/-- A product document: the fields the order/cart engine reads and writes. -/
structure Product where
  pid : Nat
  vendorId : Nat
  price : Rat
  stock : Int
  isActive : Bool
  discount : Rat
  totalSales : Int
  deriving DecidableEq, Repr

/-- One line of a cart: product reference, quantity, price snapshot. -/
structure CartItem where
  productId : Nat
  quantity : Int
  price : Rat
  deriving DecidableEq, Repr

/-- A guest-cart line sent by the frontend to `syncCart`. -/
structure GuestItem where
  productId : Nat
  quantity : Int
  deriving DecidableEq, Repr

/-- One line item of an order, snapshotted at commit time. -/
structure OrderItem where
  productId : Nat
  vendorId : Nat
  quantity : Int
  price : Rat
  discount : Rat
  total : Rat
  deriving DecidableEq, Repr

/-- One entry of an order's status history. -/
structure HistoryEntry where
  status : OrderStatus
  timestamp : Nat
  note : String
  deriving DecidableEq, Repr

/-- An order document (fields the engine reads and writes). -/
structure Order where
  oid : Nat
  orderNumber : String
  customerId : Nat
  items : List OrderItem
  subtotal : Rat
  taxRate : Rat
  tax : Rat
  shippingCost : Rat
  discount : Rat
  total : Rat
  status : OrderStatus
  statusHistory : List HistoryEntry
  deliveredAt : Option Nat
  deriving DecidableEq, Repr

/-- The database: products, per-customer carts, orders. -/
structure DB where
  products : List Product
  carts : List (Nat × List CartItem)
  orders : List Order
  deriving DecidableEq, Repr

/-- The caller-supplied part of `CreateOrderDto` that the algorithm reads
(shippingCost and discount default to 0 at the call sites modelled here). -/
structure CreateOrderDto where
  shippingCost : Rat
  discount : Rat
  deriving DecidableEq, Repr

/-- Model of `productModel.findById`. -/
def findProduct (ps : List Product) (pid : Nat) : Option Product :=
  ps.find? (fun p => p.pid == pid)

/-- Model of `cartModel.findOne` by user id, returning the items. -/
def findCart (db : DB) (uid : Nat) : Option (List CartItem) :=
  (db.carts.find? (fun c => c.1 == uid)).map (fun c => c.2)

/-- Model of writing a customer's cart items back (updateOne / cart.save). -/
def setCart (db : DB) (uid : Nat) (items : List CartItem) : DB :=
  { db with carts := db.carts.map (fun c => if c.1 == uid then (c.1, items) else c) }

/-- Model of `orderModel.findById`. -/
def findOrder (db : DB) (oid : Nat) : Option Order :=
  db.orders.find? (fun o => o.oid == oid)

/-- Model of `order.save()`: replace the stored document with the mutated one. -/
def saveOrder (db : DB) (o : Order) : DB :=
  { db with orders := db.orders.map (fun x => if x.oid == o.oid then o else x) }

/-- The fixed tax rate: `const taxRate = 0.08`. -/
def taxRate : Rat := 8 / 100

/-- Model of `String(n).padStart(6, '0')`. -/
def pad6 (n : Nat) : String :=
  let s := toString n
  String.mk (List.replicate (6 - s.length) '0') ++ s

/-- Model of `generateOrderNumber`: date prefix plus `countDocuments() + 1`,
zero-padded to six digits. The date prefix (`ORD${year}${month}${day}`)
is passed in by the caller as the current date. -/
def generateOrderNumber (datePrefix : String) (db : DB) : String :=
  datePrefix ++ pad6 (db.orders.length + 1)

/-- The validation half of `createOrder`'s loop over cart items: look up
each product, fail if missing/inactive or stock < quantity, otherwise
build the order line with `total = quantity * price` (the cart's price
snapshot). -/
def validateItems (ps : List Product) : List CartItem → Except Err (List OrderItem)
  | [] => Except.ok []
  | ci :: rest =>
    match findProduct ps ci.productId with
    | none => Except.error Err.productUnavailable
    | some p =>
      if p.isActive = false then Except.error Err.productUnavailable
      else if p.stock < ci.quantity then Except.error Err.insufficientStock
      else
        match validateItems ps rest with
        | Except.error e => Except.error e
        | Except.ok tl =>
          Except.ok
            ({ productId := ci.productId
               vendorId := p.vendorId
               quantity := ci.quantity
               price := ci.price
               discount := p.discount
               total := (ci.quantity : Rat) * ci.price } :: tl)

/-- One `$inc {stock: -q, totalSales: +q}` update, as done per line in
`createOrder`'s stock-reduction loop. -/
def reserveItem (ps : List Product) (it : OrderItem) : List Product :=
  ps.map (fun p =>
    if p.pid == it.productId then
      { p with stock := p.stock - it.quantity, totalSales := p.totalSales + it.quantity }
    else p)

/-- One `$inc {stock: +q, totalSales: -q}` update, as done per line in
`cancelOrder`'s stock-restoration loop. -/
def releaseItem (ps : List Product) (it : OrderItem) : List Product :=
  ps.map (fun p =>
    if p.pid == it.productId then
      { p with stock := p.stock + it.quantity, totalSales := p.totalSales - it.quantity }
    else p)

/-- Model of `OrdersService.createOrder`. Mirrors the source order of effects:
validate every line (throwing aborts with nothing written), compute
totals, mint the order number, persist the order, decrement stock per
line, clear the cart, return the order. -/
def createOrder (uid : Nat) (dto : CreateOrderDto) (datePrefix : String) (now : Nat)
    (db : DB) : Except Err Order × DB :=
  match findCart db uid with
  | none => (Except.error Err.emptyCart, db)
  | some items =>
    if items.isEmpty then (Except.error Err.emptyCart, db)
    else
      match validateItems db.products items with
      | Except.error e => (Except.error e, db)
      | Except.ok orderItems =>
        let subtotal := (orderItems.map (fun it => it.total)).sum
        let tax := subtotal * taxRate
        let total := subtotal + tax + dto.shippingCost - dto.discount
        let order : Order :=
          { oid := db.orders.length
            orderNumber := generateOrderNumber datePrefix db
            customerId := uid
            items := orderItems
            subtotal := subtotal
            taxRate := taxRate
            tax := tax
            shippingCost := dto.shippingCost
            discount := dto.discount
            total := total
            status := OrderStatus.pending
            statusHistory :=
              [{ status := OrderStatus.pending, timestamp := now, note := "Order placed" }]
            deliveredAt := none }
        let db1 : DB := { db with orders := db.orders ++ [order] }
        let db2 : DB := { db1 with products := orderItems.foldl reserveItem db1.products }
        (Except.ok order, setCart db2 uid [])

/-- Printable status name, for the default history note. -/
def statusName : OrderStatus → String
  | OrderStatus.pending => "PENDING"
  | OrderStatus.confirmed => "CONFIRMED"
  | OrderStatus.processing => "PROCESSING"
  | OrderStatus.shipped => "SHIPPED"
  | OrderStatus.delivered => "DELIVERED"
  | OrderStatus.cancelled => "CANCELLED"

/-- Model of `OrdersService.updateOrderStatus` (vendor only): find the order, check
the vendor owns a line item, then set the status, append a history entry,
stamp `deliveredAt` on DELIVERED, and save. The source performs no
transition-table check. -/
def updateOrderStatus (oid vendorId : Nat) (status : OrderStatus) (note : Option String)
    (now : Nat) (db : DB) : Except Err Order × DB :=
  match findOrder db oid with
  | none => (Except.error Err.notFound, db)
  | some order =>
    if order.items.any (fun it => it.vendorId == vendorId) = false then
      (Except.error Err.forbidden, db)
    else
      let entry : HistoryEntry :=
        { status := status
          timestamp := now
          note := note.getD ("Status updated to " ++ statusName status) }
      let order1 : Order :=
        { order with
          status := status
          statusHistory := order.statusHistory ++ [entry]
          deliveredAt := if status = OrderStatus.delivered then some now else order.deliveredAt }
      (Except.ok order1, saveOrder db order1)

/-- Model of `OrdersService.cancelOrder` (customer only): find the order, check
ownership, reject unless status is PENDING or CONFIRMED, restore stock per
line, set status to CANCELLED, append a history entry, save. -/
def cancelOrder (oid uid : Nat) (reason : Option String) (now : Nat)
    (db : DB) : Except Err Order × DB :=
  match findOrder db oid with
  | none => (Except.error Err.notFound, db)
  | some order =>
    if order.customerId ≠ uid then (Except.error Err.forbidden, db)
    else if order.status ≠ OrderStatus.pending ∧ order.status ≠ OrderStatus.confirmed then
      (Except.error Err.cannotCancel, db)
    else
      let products1 := order.items.foldl releaseItem db.products
      let entry : HistoryEntry :=
        { status := OrderStatus.cancelled
          timestamp := now
          note := reason.getD "Cancelled by customer" }
      let order1 : Order :=
        { order with
          status := OrderStatus.cancelled
          statusHistory := order.statusHistory ++ [entry] }
      (Except.ok order1, saveOrder { db with products := products1 } order1)

/-- The statistics record returned by `getVendorOrderStats`. -/
structure VendorStats where
  totalOrders : Nat
  totalRevenue : Rat
  pending : Nat
  processing : Nat
  shipped : Nat
  delivered : Nat
  deriving DecidableEq, Repr

/-- The vendor's revenue from one order:
`order.items.filter(vendorId match).reduce((sum, item) => sum + item.total, 0)`. -/
def vendorRevenue (vid : Nat) (o : Order) : Rat :=
  (o.items.filter (fun it => it.vendorId == vid)).foldl (fun sum it => sum + it.total) 0

/-- One iteration of `getVendorOrderStats`'s loop: add the vendor's
revenue, then bump the status counter along the source's else-if chain
(which has branches only for PENDING, PROCESSING, SHIPPED, DELIVERED). -/
def statsStep (vid : Nat) (s : VendorStats) (o : Order) : VendorStats :=
  let s1 := { s with totalRevenue := s.totalRevenue + vendorRevenue vid o }
  if o.status = OrderStatus.pending then { s1 with pending := s1.pending + 1 }
  else if o.status = OrderStatus.processing then { s1 with processing := s1.processing + 1 }
  else if o.status = OrderStatus.shipped then { s1 with shipped := s1.shipped + 1 }
  else if o.status = OrderStatus.delivered then { s1 with delivered := s1.delivered + 1 }
  else s1

/-- Model of `OrdersService.getVendorOrderStats`: select the orders containing at
least one of the vendor's line items, then fold the loop body over them;
`totalOrders` is the length of the selection. -/
def getVendorOrderStats (vid : Nat) (db : DB) : VendorStats :=
  let orders := db.orders.filter (fun o => o.items.any (fun it => it.vendorId == vid))
  orders.foldl (statsStep vid)
    { totalOrders := orders.length
      totalRevenue := 0
      pending := 0
      processing := 0
      shipped := 0
      delivered := 0 }

/-- Model of `CartService.validateCartItems`: keep each guest line whose product
exists, is active and has stock > 0, clamping its quantity to stock and
taking the current price. -/
def validateCartItems (ps : List Product) : List GuestItem → List CartItem
  | [] => []
  | gi :: rest =>
    match findProduct ps gi.productId with
    | none => validateCartItems ps rest
    | some p =>
      if p.isActive = true ∧ 0 < p.stock then
        { productId := gi.productId
          quantity := min gi.quantity p.stock
          price := p.price } :: validateCartItems ps rest
      else validateCartItems ps rest

/-- The body of `syncCart`'s merge on the first cart line matching the
guest line: sum quantities, clamp to stock, refresh the price; if no line
matches, push a new line clamped to stock. -/
def mergeInto (p : Product) (gi : GuestItem) : List CartItem → List CartItem
  | [] => [{ productId := gi.productId, quantity := min gi.quantity p.stock, price := p.price }]
  | it :: rest =>
    if it.productId == gi.productId then
      { productId := it.productId
        quantity := min (it.quantity + gi.quantity) p.stock
        price := p.price } :: rest
    else it :: mergeInto p gi rest

/-- One iteration of `syncCart`'s merge loop over guest items: skip the
line (`continue`) when its product is missing, inactive or has stock < 1,
otherwise merge it into the cart. -/
def mergeGuestItem (ps : List Product) (items : List CartItem) (gi : GuestItem) :
    List CartItem :=
  match findProduct ps gi.productId with
  | none => items
  | some p =>
    if p.isActive = false ∨ p.stock < 1 then items
    else mergeInto p gi items

/-- Model of `CartService.syncCart`: with no existing cart, create one from the
validated guest items; with an existing cart, merge each guest line into
it and save. -/
def syncCart (uid : Nat) (guestItems : List GuestItem) (db : DB) : DB :=
  match findCart db uid with
  | none =>
    { db with carts := db.carts ++ [(uid, validateCartItems db.products guestItems)] }
  | some items => setCart db uid (guestItems.foldl (mergeGuestItem db.products) items)

/-- Sum of the quantities an order's line items request for one product. -/
def orderedQty (items : List OrderItem) (pid : Nat) : Int :=
  ((items.filter (fun it => it.productId == pid)).map (fun it => it.quantity)).sum

/-- The stock of the product with the given id, when present. -/
def stockOf (ps : List Product) (pid : Nat) : Option Int :=
  (findProduct ps pid).map (fun p => p.stock)

/-- The cumulative sales counter of the product with the given id. -/
def salesOf (ps : List Product) (pid : Nat) : Option Int :=
  (findProduct ps pid).map (fun p => p.totalSales)

deriving instance DecidableEq for Except

/-!
Concrete fixtures used by the witnesses and counterexamples below.
-/

/-- Product A of the pricing scenarios: pid 1, vendor 10, price 100, stock 10. -/
def prodA : Product := ⟨1, 10, 100, 10, true, 0, 0⟩

/-- Product B of the pricing scenarios: pid 2, vendor 11, price 50, stock 5. -/
def prodB : Product := ⟨2, 11, 50, 5, true, 0, 0⟩

/-- Pricing-scenario database: customer 7's cart holds A qty 2 @ 100 and B qty 1 @ 50. -/
def dbPricing : DB :=
  { products := [prodA, prodB]
    carts := [(7, [⟨1, 2, 100⟩, ⟨2, 1, 50⟩])]
    orders := [] }

/-- Order input of the pricing scenario: shippingCost 10, discount 0. -/
def dtoPricing : CreateOrderDto := ⟨10, 0⟩

/-- Insufficient-stock scenario: customer 7's cart wants qty 2 of a product with stock 1. -/
def dbShort : DB :=
  { products := [⟨1, 10, 100, 1, true, 0, 0⟩]
    carts := [(7, [⟨1, 2, 100⟩])]
    orders := [] }

/-- A pending order of customer 7: A qty 3 and B qty 1 (used by the
cancellation scenario). -/
def orderAB : Order :=
  { oid := 0
    orderNumber := "ORD0000001"
    customerId := 7
    items := [⟨1, 10, 3, 100, 0, 300⟩, ⟨2, 11, 1, 50, 0, 50⟩]
    subtotal := 350
    taxRate := 8 / 100
    tax := 28
    shippingCost := 0
    discount := 0
    total := 378
    status := OrderStatus.pending
    statusHistory := [⟨OrderStatus.pending, 0, "Order placed"⟩]
    deliveredAt := none }

/-- A delivered order of customer 7 with one line owned by vendor 5. -/
def orderDelivered : Order :=
  { oid := 0
    orderNumber := "ORD0000002"
    customerId := 7
    items := [⟨1, 5, 1, 10, 0, 10⟩]
    subtotal := 10
    taxRate := 8 / 100
    tax := 4 / 5
    shippingCost := 0
    discount := 0
    total := 54 / 5
    status := OrderStatus.delivered
    statusHistory := [⟨OrderStatus.pending, 0, "Order placed"⟩,
                      ⟨OrderStatus.delivered, 1, "Delivered"⟩]
    deliveredAt := some 1 }

/-- Database holding only the delivered order. -/
def dbDelivered : DB := { products := [], carts := [], orders := [orderDelivered] }

/-- Database for the cancellation scenario: the pending A/B order, with
current stock A = 2 and B = 0 (sales 3 and 1 from the commit). -/
def dbCancel : DB :=
  { products := [⟨1, 10, 100, 2, true, 0, 3⟩, ⟨2, 11, 50, 0, true, 0, 1⟩]
    carts := []
    orders := [orderAB] }

/-- Database with one order in it (same order count as dbDelivered,
different content). -/
def dbCount : DB := { products := [], carts := [], orders := [orderAB] }

/-- The order minted by the pricing scenario. -/
def oPricing : Order :=
  { oid := 0
    orderNumber := "ORD20251011000001"
    customerId := 7
    items := [⟨1, 10, 2, 100, 0, 200⟩, ⟨2, 11, 1, 50, 0, 50⟩]
    subtotal := 250
    taxRate := 8 / 100
    tax := 20
    shippingCost := 10
    discount := 0
    total := 280
    status := OrderStatus.pending
    statusHistory := [⟨OrderStatus.pending, 0, "Order placed"⟩]
    deliveredAt := none }

/-- The cancelled A/B order, as stored after the cancellation scenario. -/
def orderABCancelled : Order :=
  { orderAB with
    status := OrderStatus.cancelled
    statusHistory := [⟨OrderStatus.pending, 0, "Order placed"⟩,
                      ⟨OrderStatus.cancelled, 5, "Cancelled by customer"⟩] }

/-- The database after cancelling the A/B order: stock restored to 5 and
1, sales counters back to 0. -/
def dbCancelled : DB :=
  { products := [⟨1, 10, 100, 5, true, 0, 0⟩, ⟨2, 11, 50, 1, true, 0, 0⟩]
    carts := []
    orders := [orderABCancelled] }

/-- The database produced by the pricing-scenario commit: stock 8 and 4,
sales 2 and 1, cart emptied, order stored. -/
def dbPricingAfter : DB :=
  { products := [⟨1, 10, 100, 8, true, 0, 2⟩, ⟨2, 11, 50, 4, true, 0, 1⟩]
    carts := [(7, [])]
    orders := [oPricing] }

/-- The delivered order after a vendor moves it back to PENDING (the
history gains the default-note entry, deliveredAt is untouched). -/
def orderDeliveredReopened : Order :=
  { orderDelivered with
    status := OrderStatus.pending
    statusHistory := [⟨OrderStatus.pending, 0, "Order placed"⟩,
                      ⟨OrderStatus.delivered, 1, "Delivered"⟩,
                      ⟨OrderStatus.pending, 2, "Status updated to PENDING"⟩] }

/-- Product P of the guest-merge scenario: pid 5, stock 3, price 7. -/
def prodP : Product := ⟨5, 3, 7, 3, true, 0, 0⟩

/-- An inactive product (pid 6). -/
def prodQ : Product := ⟨6, 3, 4, 10, false, 0, 0⟩

/-- Database with product P and no cart for customer 9. -/
def dbNoCart : DB := { products := [prodP], carts := [], orders := [] }

attribute [local semireducible] Rat.add Rat.mul Rat.sub Rat.inv

/-- C1: every failure of createOrder (empty cart, unavailable product,
insufficient stock) leaves the database — carts, product stock, orders —
exactly as it was: validation runs before any mutation. -/
theorem createOrder_error_no_mutation (uid : Nat) (dto : CreateOrderDto)
    (d : String) (now : Nat) (db : DB) (e : Err)
    (h : (createOrder uid dto d now db).1 = Except.error e) :
    (createOrder uid dto d now db).2 = db := by
  rcases hfc : findCart db uid with _ | items
  · simp [createOrder, hfc]
  · by_cases hemp : items.isEmpty
    · simp [createOrder, hfc, hemp]
    · rcases hv : validateItems db.products items with e1 | ois
      · simp [createOrder, hfc, hemp, hv]
      · simp [createOrder, hfc, hemp, hv] at h

/-- Witness for C1: the insufficient-stock scenario fails with
InsufficientStock and leaves the database untouched. -/
theorem createOrder_error_no_mutation_witness :
    (createOrder 7 dtoPricing "D" 0 dbShort).1 = Except.error Err.insufficientStock ∧
    (createOrder 7 dtoPricing "D" 0 dbShort).2 = dbShort :=
  ⟨by decide, createOrder_error_no_mutation 7 dtoPricing "D" 0 dbShort
    Err.insufficientStock (by decide)⟩

/-- C2 counterexample: the source's updateOrderStatus enforces no
transition table. A vendor owning a line of a DELIVERED (terminal) order
can move it back to PENDING: the call succeeds and both the returned and
the stored order carry status PENDING with a new history entry, where the
claim demands an InvalidTransition failure that leaves the order
unchanged. -/
theorem updateOrderStatus_allows_illegal_transition :
    ((updateOrderStatus 0 5 OrderStatus.pending none 2 dbDelivered).1.toOption.map
       (fun o => o.status) = some OrderStatus.pending) ∧
    ((findOrder (updateOrderStatus 0 5 OrderStatus.pending none 2 dbDelivered).2 0).map
       (fun o => o.status) = some OrderStatus.pending) := by
  constructor
  · decide
  · decide

/-- C5: the order-number sequence is derived from the current number of
stored orders (countDocuments() + 1), not from an independent atomic
counter: any two database states with the same order count yield the
same order number for the same date — which is exactly how two
interleaved same-day commits collide. Shown on two different concrete
states with one stored order each. -/
theorem generateOrderNumber_collision :
    dbCount ≠ dbDelivered ∧
    generateOrderNumber "ORD20250101" dbCount = "ORD20250101000002" ∧
    generateOrderNumber "ORD20250101" dbCount =
      generateOrderNumber "ORD20250101" dbDelivered := by
  refine ⟨by decide, by decide, by decide⟩

/-- Every line minted by the validation loop carries
total = quantity * price (with the cart's snapshotted price). -/
theorem validateItems_totals (ps : List Product) :
    ∀ (items : List CartItem) (ois : List OrderItem),
      validateItems ps items = Except.ok ois →
      ∀ it ∈ ois, it.total = (it.quantity : Rat) * it.price := by
  intro items
  induction items with
  | nil =>
    intro ois h it hit
    simp [validateItems] at h
    subst h
    simp at hit
  | cons ci rest ih =>
    intro ois h it hit
    rw [validateItems] at h
    split at h
    · cases h
    · split at h
      · cases h
      · split at h
        · cases h
        · split at h
          · cases h
          · rename_i tl hv
            cases h
            rw [List.mem_cons] at hit
            rcases hit with rfl | hit
            · rfl
            · exact ih tl hv it hit

/-- C4 theorem: pricing algebra of createOrder. -/
theorem createOrder_totals (uid : Nat) (dto : CreateOrderDto) (d : String)
    (now : Nat) (db : DB) (o : Order)
    (h : (createOrder uid dto d now db).1 = Except.ok o) :
    (∀ it ∈ o.items, it.total = (it.quantity : Rat) * it.price) ∧
    o.subtotal = (o.items.map (fun it => it.total)).sum ∧
    o.taxRate = taxRate ∧
    o.tax = o.subtotal * taxRate ∧
    o.shippingCost = dto.shippingCost ∧
    o.discount = dto.discount ∧
    o.total = o.subtotal + o.tax + o.shippingCost - o.discount := by
  rw [createOrder] at h
  split at h
  · cases h
  · rename_i items hfc
    split at h
    · cases h
    · split at h
      · cases h
      · rename_i ois hv
        simp only at h
        cases h
        exact ⟨validateItems_totals db.products items ois hv, rfl, rfl, rfl, rfl, rfl, rfl⟩

/-- Witness for C4. -/
theorem createOrder_totals_witness :
    (createOrder 7 dtoPricing "ORD20251011" 0 dbPricing).1 = Except.ok oPricing ∧
    oPricing.subtotal = 250 ∧ oPricing.tax = 20 ∧ oPricing.total = 280 ∧
    oPricing.subtotal = (oPricing.items.map (fun it => it.total)).sum ∧
    oPricing.tax = oPricing.subtotal * taxRate ∧
    oPricing.total = oPricing.subtotal + oPricing.tax + oPricing.shippingCost - oPricing.discount := by
  have h := createOrder_totals 7 dtoPricing "ORD20251011" 0 dbPricing oPricing (by decide)
  exact ⟨by decide, by decide, by decide, by decide, h.2.1, h.2.2.2.1, h.2.2.2.2.2.2⟩

/-- Unfolding of orderedQty over the head line of an order. -/
theorem orderedQty_cons (it : OrderItem) (rest : List OrderItem) (pid : Nat) :
    orderedQty (it :: rest) pid =
      (if it.productId == pid then it.quantity else 0) + orderedQty rest pid := by
  simp only [orderedQty, List.filter_cons]
  split
  · simp
  · simp

/-- Looking a product up after one reserve update: the found document is
the old one with the matching-id update applied. -/
theorem findProduct_reserveItem (ps : List Product) (it : OrderItem) (pid : Nat) :
    findProduct (reserveItem ps it) pid =
      (findProduct ps pid).map (fun p =>
        if p.pid == it.productId then
          { p with stock := p.stock - it.quantity, totalSales := p.totalSales + it.quantity }
        else p) := by
  unfold findProduct reserveItem
  rw [List.find?_map]
  congr 1
  congr 1
  funext p
  simp only [Function.comp_apply]
  split <;> rfl

/-- Looking a product up after one release update. -/
theorem findProduct_releaseItem (ps : List Product) (it : OrderItem) (pid : Nat) :
    findProduct (releaseItem ps it) pid =
      (findProduct ps pid).map (fun p =>
        if p.pid == it.productId then
          { p with stock := p.stock + it.quantity, totalSales := p.totalSales - it.quantity }
        else p) := by
  unfold findProduct releaseItem
  rw [List.find?_map]
  congr 1
  congr 1
  funext p
  simp only [Function.comp_apply]
  split <;> rfl

/-- The whole reserve loop shifts each product's stock by the summed
ordered quantity and its sales counter by the opposite amount. -/
theorem stockOf_foldl_reserveItem :
    ∀ (items : List OrderItem) (ps : List Product) (pid : Nat),
      stockOf (items.foldl reserveItem ps) pid =
        (stockOf ps pid).map (fun s => s - orderedQty items pid) ∧
      salesOf (items.foldl reserveItem ps) pid =
        (salesOf ps pid).map (fun s => s + orderedQty items pid) := by
  intro items
  induction items with
  | nil =>
    intro ps pid
    constructor <;> cases h : findProduct ps pid <;>
      simp [stockOf, salesOf, orderedQty, h]
  | cons it rest ih =>
    intro ps pid
    rw [List.foldl_cons]
    obtain ⟨ihs, ihl⟩ := ih (reserveItem ps it) pid
    rw [orderedQty_cons]
    constructor
    · rw [ihs]
      unfold stockOf
      rw [findProduct_reserveItem, Option.map_map, Option.map_map]
      cases hfp : findProduct ps pid with
      | none => rfl
      | some p =>
        have hp : p.pid = pid := by simpa using List.find?_some hfp
        subst hp
        simp only [Option.map_some', Function.comp_apply, beq_iff_eq]
        congr 1
        by_cases hc : it.productId = p.pid
        · rw [if_pos hc.symm, if_pos hc]
          dsimp only
          omega
        · rw [if_neg (fun h => hc h.symm), if_neg hc]
          omega
    · rw [ihl]
      unfold salesOf
      rw [findProduct_reserveItem, Option.map_map, Option.map_map]
      cases hfp : findProduct ps pid with
      | none => rfl
      | some p =>
        have hp : p.pid = pid := by simpa using List.find?_some hfp
        subst hp
        simp only [Option.map_some', Function.comp_apply, beq_iff_eq]
        congr 1
        by_cases hc : it.productId = p.pid
        · rw [if_pos hc.symm, if_pos hc]
          dsimp only
          omega
        · rw [if_neg (fun h => hc h.symm), if_neg hc]
          omega

/-- The whole release loop shifts each product's stock by the summed
ordered quantity and its sales counter by the opposite amount. -/
theorem stockOf_foldl_releaseItem :
    ∀ (items : List OrderItem) (ps : List Product) (pid : Nat),
      stockOf (items.foldl releaseItem ps) pid =
        (stockOf ps pid).map (fun s => s + orderedQty items pid) ∧
      salesOf (items.foldl releaseItem ps) pid =
        (salesOf ps pid).map (fun s => s - orderedQty items pid) := by
  intro items
  induction items with
  | nil =>
    intro ps pid
    constructor <;> cases h : findProduct ps pid <;>
      simp [stockOf, salesOf, orderedQty, h]
  | cons it rest ih =>
    intro ps pid
    rw [List.foldl_cons]
    obtain ⟨ihs, ihl⟩ := ih (releaseItem ps it) pid
    rw [orderedQty_cons]
    constructor
    · rw [ihs]
      unfold stockOf
      rw [findProduct_releaseItem, Option.map_map, Option.map_map]
      cases hfp : findProduct ps pid with
      | none => rfl
      | some p =>
        have hp : p.pid = pid := by simpa using List.find?_some hfp
        subst hp
        simp only [Option.map_some', Function.comp_apply, beq_iff_eq]
        congr 1
        by_cases hc : it.productId = p.pid
        · rw [if_pos hc.symm, if_pos hc]
          dsimp only
          omega
        · rw [if_neg (fun h => hc h.symm), if_neg hc]
          omega
    · rw [ihl]
      unfold salesOf
      rw [findProduct_releaseItem, Option.map_map, Option.map_map]
      cases hfp : findProduct ps pid with
      | none => rfl
      | some p =>
        have hp : p.pid = pid := by simpa using List.find?_some hfp
        subst hp
        simp only [Option.map_some', Function.comp_apply, beq_iff_eq]
        congr 1
        by_cases hc : it.productId = p.pid
        · rw [if_pos hc.symm, if_pos hc]
          dsimp only
          omega
        · rw [if_neg (fun h => hc h.symm), if_neg hc]
          omega

/-- C3: per product, the stock decrement (and sales increment) applied by
a successful createOrder commit and the stock increment (and sales
decrement) applied by a successful cancelOrder are exact inverses: both
shift stock by the summed ordered quantity of that product, with opposite
signs. -/
theorem commit_cancel_stock_inverse :
    (∀ (uid : Nat) (dto : CreateOrderDto) (d : String) (now : Nat) (db : DB)
        (o : Order) (db2 : DB),
      createOrder uid dto d now db = (Except.ok o, db2) →
      ∀ pid : Nat,
        stockOf db2.products pid =
          (stockOf db.products pid).map (fun s => s - orderedQty o.items pid) ∧
        salesOf db2.products pid =
          (salesOf db.products pid).map (fun s => s + orderedQty o.items pid)) ∧
    (∀ (oid uid : Nat) (reason : Option String) (now : Nat) (db : DB)
        (o : Order) (db2 : DB),
      cancelOrder oid uid reason now db = (Except.ok o, db2) →
      ∀ pid : Nat,
        stockOf db2.products pid =
          (stockOf db.products pid).map (fun s => s + orderedQty o.items pid) ∧
        salesOf db2.products pid =
          (salesOf db.products pid).map (fun s => s - orderedQty o.items pid)) := by
  constructor
  · intro uid dto d now db o db2 h pid
    rw [createOrder] at h
    split at h
    · cases h
    · split at h
      · cases h
      · split at h
        · cases h
        · rename_i ois hv
          injection h with h1 h2
          injection h1 with h1
          subst h1
          subst h2
          exact stockOf_foldl_reserveItem ois db.products pid
  · intro oid uid reason now db o db2 h pid
    rw [cancelOrder] at h
    split at h
    · cases h
    · rename_i order hfo
      split at h
      · cases h
      · split at h
        · cases h
        · injection h with h1 h2
          injection h1 with h1
          subst h1
          subst h2
          exact stockOf_foldl_releaseItem order.items db.products pid

/-- Witness for C3: the pricing-scenario commit moves stock of product 1
from 10 to 8, and cancelling the pending A qty 3 / B qty 1 order raises
stock of product 1 from 2 to 5 and of product 2 from 0 to 1. -/
theorem commit_cancel_stock_inverse_witness :
    (createOrder 7 dtoPricing "ORD20251011" 0 dbPricing = (Except.ok oPricing, dbPricingAfter) ∧
     stockOf dbPricingAfter.products 1 =
       (stockOf dbPricing.products 1).map (fun s => s - orderedQty oPricing.items 1) ∧
     stockOf dbPricing.products 1 = some 10 ∧ stockOf dbPricingAfter.products 1 = some 8) ∧
    (cancelOrder 0 7 none 5 dbCancel = (Except.ok orderABCancelled, dbCancelled) ∧
     stockOf dbCancelled.products 1 =
       (stockOf dbCancel.products 1).map (fun s => s + orderedQty orderABCancelled.items 1) ∧
     salesOf dbCancelled.products 1 =
       (salesOf dbCancel.products 1).map (fun s => s - orderedQty orderABCancelled.items 1) ∧
     stockOf dbCancel.products 1 = some 2 ∧ stockOf dbCancelled.products 1 = some 5 ∧
     stockOf dbCancel.products 2 = some 0 ∧ stockOf dbCancelled.products 2 = some 1) := by
  constructor
  · refine ⟨by decide, ?_, by decide, by decide⟩
    exact (commit_cancel_stock_inverse.1 7 dtoPricing "ORD20251011" 0 dbPricing
      oPricing dbPricingAfter (by decide) 1).1
  · refine ⟨by decide, ?_, ?_, by decide, by decide, by decide, by decide⟩
    · exact (commit_cancel_stock_inverse.2 0 7 none 5 dbCancel
        orderABCancelled dbCancelled (by decide) 1).1
    · exact (commit_cancel_stock_inverse.2 0 7 none 5 dbCancel
        orderABCancelled dbCancelled (by decide) 1).2

/-- C7: each operation appends to statusHistory and leaves the previous
entries intact — createOrder creates a one-entry history, updateOrderStatus
and cancelOrder extend the stored order's history by exactly one entry —
and in every case the last entry's status equals the order's new status. -/
theorem statusHistory_append_only :
    (∀ (uid : Nat) (dto : CreateOrderDto) (d : String) (now : Nat) (db : DB) (o : Order),
      (createOrder uid dto d now db).1 = Except.ok o →
      o.status = OrderStatus.pending ∧
      o.statusHistory = [⟨OrderStatus.pending, now, "Order placed"⟩] ∧
      (o.statusHistory.getLast?).map (fun e => e.status) = some o.status) ∧
    (∀ (oid vid : Nat) (st : OrderStatus) (note : Option String) (now : Nat) (db : DB)
        (old o : Order),
      findOrder db oid = some old →
      (updateOrderStatus oid vid st note now db).1 = Except.ok o →
      o.status = st ∧
      o.statusHistory = old.statusHistory ++
        [⟨st, now, note.getD ("Status updated to " ++ statusName st)⟩] ∧
      (o.statusHistory.getLast?).map (fun e => e.status) = some o.status) ∧
    (∀ (oid uid : Nat) (reason : Option String) (now : Nat) (db : DB) (old o : Order),
      findOrder db oid = some old →
      (cancelOrder oid uid reason now db).1 = Except.ok o →
      o.status = OrderStatus.cancelled ∧
      o.statusHistory = old.statusHistory ++
        [⟨OrderStatus.cancelled, now, reason.getD "Cancelled by customer"⟩] ∧
      (o.statusHistory.getLast?).map (fun e => e.status) = some o.status) := by
  refine ⟨?_, ?_, ?_⟩
  · intro uid dto d now db o h
    rw [createOrder] at h
    split at h
    · cases h
    · split at h
      · cases h
      · split at h
        · cases h
        · injection h with h1
          subst h1
          exact ⟨rfl, rfl, rfl⟩
  · intro oid vid st note now db old o hfo h
    rw [updateOrderStatus] at h
    split at h
    · cases h
    · rename_i order hfo2
      rw [hfo] at hfo2
      injection hfo2 with hfo2
      subst hfo2
      split at h
      · cases h
      · injection h with h1
        subst h1
        refine ⟨rfl, rfl, ?_⟩
        simp [List.getLast?_concat]
  · intro oid uid reason now db old o hfo h
    rw [cancelOrder] at h
    split at h
    · cases h
    · rename_i order hfo2
      rw [hfo] at hfo2
      injection hfo2 with hfo2
      subst hfo2
      split at h
      · cases h
      · split at h
        · cases h
        · injection h with h1
          subst h1
          refine ⟨rfl, rfl, ?_⟩
          simp [List.getLast?_concat]

/-- Witness for C7: concrete runs of all three operations append exactly
one entry whose status matches the new order status. -/
theorem statusHistory_append_only_witness :
    (oPricing.status = OrderStatus.pending ∧
     oPricing.statusHistory = [⟨OrderStatus.pending, 0, "Order placed"⟩] ∧
     (oPricing.statusHistory.getLast?).map (fun e => e.status) = some oPricing.status) ∧
    (orderDeliveredReopened.status = OrderStatus.pending ∧
     orderDeliveredReopened.statusHistory = orderDelivered.statusHistory ++
       [⟨OrderStatus.pending, 2, "Status updated to PENDING"⟩] ∧
     (orderDeliveredReopened.statusHistory.getLast?).map (fun e => e.status) =
       some orderDeliveredReopened.status) ∧
    (orderABCancelled.status = OrderStatus.cancelled ∧
     orderABCancelled.statusHistory = orderAB.statusHistory ++
       [⟨OrderStatus.cancelled, 5, "Cancelled by customer"⟩] ∧
     (orderABCancelled.statusHistory.getLast?).map (fun e => e.status) =
       some orderABCancelled.status) := by
  refine ⟨?_, ?_, ?_⟩
  · exact statusHistory_append_only.1 7 dtoPricing "ORD20251011" 0 dbPricing oPricing
      (by decide)
  · have h := statusHistory_append_only.2.1 0 5 OrderStatus.pending none 2 dbDelivered
      orderDelivered orderDeliveredReopened (by decide) (by decide)
    exact ⟨h.1, h.2.1, h.2.2⟩
  · have h := statusHistory_append_only.2.2 0 7 none 5 dbCancel
      orderAB orderABCancelled (by decide) (by decide)
    exact ⟨h.1, h.2.1, h.2.2⟩

/-- C9: updateOrderStatus succeeds only for a vendor owning at least one
line item and fails with Forbidden (database unchanged) for any other
actor; cancelOrder succeeds only for the owning customer and fails with
Forbidden (database unchanged) on any mismatch. -/
theorem ownership_enforced :
    (∀ (oid vid : Nat) (st : OrderStatus) (note : Option String) (now : Nat) (db : DB)
        (old : Order),
      findOrder db oid = some old →
      old.items.any (fun it => it.vendorId == vid) = false →
      updateOrderStatus oid vid st note now db = (Except.error Err.forbidden, db)) ∧
    (∀ (oid vid : Nat) (st : OrderStatus) (note : Option String) (now : Nat) (db : DB)
        (old o : Order),
      findOrder db oid = some old →
      (updateOrderStatus oid vid st note now db).1 = Except.ok o →
      old.items.any (fun it => it.vendorId == vid) = true) ∧
    (∀ (oid uid : Nat) (reason : Option String) (now : Nat) (db : DB) (old : Order),
      findOrder db oid = some old →
      old.customerId ≠ uid →
      cancelOrder oid uid reason now db = (Except.error Err.forbidden, db)) ∧
    (∀ (oid uid : Nat) (reason : Option String) (now : Nat) (db : DB) (old o : Order),
      findOrder db oid = some old →
      (cancelOrder oid uid reason now db).1 = Except.ok o →
      old.customerId = uid) := by
  refine ⟨?_, ?_, ?_, ?_⟩
  · intro oid vid st note now db old hfo hv
    simp [updateOrderStatus, hfo, hv]
  · intro oid vid st note now db old o hfo h
    rw [updateOrderStatus] at h
    split at h
    · cases h
    · rename_i order hfo2
      rw [hfo] at hfo2
      injection hfo2 with hfo2
      subst hfo2
      split at h
      · cases h
      · rename_i hcond
        simpa using hcond
  · intro oid uid reason now db old hfo hne
    simp [cancelOrder, hfo, hne]
  · intro oid uid reason now db old o hfo h
    rw [cancelOrder] at h
    split at h
    · cases h
    · rename_i order hfo2
      rw [hfo] at hfo2
      injection hfo2 with hfo2
      subst hfo2
      split at h
      · cases h
      · rename_i hcust
        exact not_not.mp hcust

/-- Witness for C9: vendor 99 owns nothing in the delivered order, so the
status update fails Forbidden with the database unchanged; customer 8 does
not own the A/B order, so cancellation fails Forbidden; and the successful
runs happen for an owning vendor (5) and the owning customer (7). -/
theorem ownership_enforced_witness :
    updateOrderStatus 0 99 OrderStatus.shipped none 3 dbDelivered =
      (Except.error Err.forbidden, dbDelivered) ∧
    orderDelivered.items.any (fun it => it.vendorId == 5) = true ∧
    cancelOrder 0 8 none 3 dbCancel = (Except.error Err.forbidden, dbCancel) ∧
    orderAB.customerId = 7 := by
  refine ⟨?_, ?_, ?_, ?_⟩
  · exact ownership_enforced.1 0 99 OrderStatus.shipped none 3 dbDelivered
      orderDelivered (by decide) (by decide)
  · exact ownership_enforced.2.1 0 5 OrderStatus.pending none 2 dbDelivered
      orderDelivered orderDeliveredReopened (by decide) (by decide)
  · exact ownership_enforced.2.2.1 0 8 none 3 dbCancel orderAB (by decide) (by decide)
  · exact ownership_enforced.2.2.2 0 7 none 5 dbCancel orderAB orderABCancelled
      (by decide) (by decide)

/-- A left fold adding line totals equals the starting value plus the sum
of the totals (the reduce in the vendor-revenue computation). -/
theorem foldl_add_totals (l : List OrderItem) (a : Rat) :
    l.foldl (fun s it => s + it.total) a = a + (l.map (fun it => it.total)).sum := by
  induction l generalizing a with
  | nil => simp
  | cons it rest ih =>
    rw [List.foldl_cons, ih, List.map_cons, List.sum_cons]
    ring

/-- vendorRevenue is the sum of the vendor-owned line totals. -/
theorem vendorRevenue_eq (vid : Nat) (o : Order) :
    vendorRevenue vid o =
      ((o.items.filter (fun it => it.vendorId == vid)).map (fun it => it.total)).sum := by
  unfold vendorRevenue
  rw [foldl_add_totals, zero_add]

/-- One statistics-loop iteration adds exactly the vendor's revenue. -/
theorem statsStep_totalRevenue (vid : Nat) (s : VendorStats) (o : Order) :
    (statsStep vid s o).totalRevenue = s.totalRevenue + vendorRevenue vid o := by
  cases h : o.status <;> simp [statsStep, h]

/-- One statistics-loop iteration never changes totalOrders. -/
theorem statsStep_totalOrders (vid : Nat) (s : VendorStats) (o : Order) :
    (statsStep vid s o).totalOrders = s.totalOrders := by
  cases h : o.status <;> simp [statsStep, h]

/-- The pending counter is bumped exactly on PENDING orders. -/
theorem statsStep_pending (vid : Nat) (s : VendorStats) (o : Order) :
    (statsStep vid s o).pending =
      if o.status = OrderStatus.pending then s.pending + 1 else s.pending := by
  cases h : o.status <;> simp [statsStep, h]

/-- The processing counter is bumped exactly on PROCESSING orders. -/
theorem statsStep_processing (vid : Nat) (s : VendorStats) (o : Order) :
    (statsStep vid s o).processing =
      if o.status = OrderStatus.processing then s.processing + 1 else s.processing := by
  cases h : o.status <;> simp [statsStep, h]

/-- The shipped counter is bumped exactly on SHIPPED orders. -/
theorem statsStep_shipped (vid : Nat) (s : VendorStats) (o : Order) :
    (statsStep vid s o).shipped =
      if o.status = OrderStatus.shipped then s.shipped + 1 else s.shipped := by
  cases h : o.status <;> simp [statsStep, h]

/-- The delivered counter is bumped exactly on DELIVERED orders. -/
theorem statsStep_delivered (vid : Nat) (s : VendorStats) (o : Order) :
    (statsStep vid s o).delivered =
      if o.status = OrderStatus.delivered then s.delivered + 1 else s.delivered := by
  cases h : o.status <;> simp [statsStep, h]

/-- The statistics loop accumulates the per-order vendor revenues. -/
theorem foldl_statsStep_totalRevenue (vid : Nat) :
    ∀ (l : List Order) (s : VendorStats),
      (l.foldl (statsStep vid) s).totalRevenue =
        s.totalRevenue + (l.map (vendorRevenue vid)).sum := by
  intro l
  induction l with
  | nil => intro s; simp
  | cons o rest ih =>
    intro s
    rw [List.foldl_cons, ih, statsStep_totalRevenue, List.map_cons, List.sum_cons]
    ring

/-- The statistics loop never changes totalOrders. -/
theorem foldl_statsStep_totalOrders (vid : Nat) :
    ∀ (l : List Order) (s : VendorStats),
      (l.foldl (statsStep vid) s).totalOrders = s.totalOrders := by
  intro l
  induction l with
  | nil => intro s; rfl
  | cons o rest ih =>
    intro s
    rw [List.foldl_cons, ih, statsStep_totalOrders]

/-- The statistics loop counts the PENDING orders into the pending bucket. -/
theorem foldl_statsStep_pending (vid : Nat) :
    ∀ (l : List Order) (s : VendorStats),
      (l.foldl (statsStep vid) s).pending =
        s.pending + (l.filter (fun o => o.status = OrderStatus.pending)).length := by
  intro l
  induction l with
  | nil => intro s; simp
  | cons o rest ih =>
    intro s
    rw [List.foldl_cons, ih, statsStep_pending, List.filter_cons]
    by_cases h : o.status = OrderStatus.pending <;> simp [h] <;> omega

/-- The statistics loop counts the PROCESSING orders into the bucket. -/
theorem foldl_statsStep_processing (vid : Nat) :
    ∀ (l : List Order) (s : VendorStats),
      (l.foldl (statsStep vid) s).processing =
        s.processing + (l.filter (fun o => o.status = OrderStatus.processing)).length := by
  intro l
  induction l with
  | nil => intro s; simp
  | cons o rest ih =>
    intro s
    rw [List.foldl_cons, ih, statsStep_processing, List.filter_cons]
    by_cases h : o.status = OrderStatus.processing <;> simp [h] <;> omega

/-- The statistics loop counts the SHIPPED orders into the bucket. -/
theorem foldl_statsStep_shipped (vid : Nat) :
    ∀ (l : List Order) (s : VendorStats),
      (l.foldl (statsStep vid) s).shipped =
        s.shipped + (l.filter (fun o => o.status = OrderStatus.shipped)).length := by
  intro l
  induction l with
  | nil => intro s; simp
  | cons o rest ih =>
    intro s
    rw [List.foldl_cons, ih, statsStep_shipped, List.filter_cons]
    by_cases h : o.status = OrderStatus.shipped <;> simp [h] <;> omega

/-- The statistics loop counts the DELIVERED orders into the bucket. -/
theorem foldl_statsStep_delivered (vid : Nat) :
    ∀ (l : List Order) (s : VendorStats),
      (l.foldl (statsStep vid) s).delivered =
        s.delivered + (l.filter (fun o => o.status = OrderStatus.delivered)).length := by
  intro l
  induction l with
  | nil => intro s; simp
  | cons o rest ih =>
    intro s
    rw [List.foldl_cons, ih, statsStep_delivered, List.filter_cons]
    by_cases h : o.status = OrderStatus.delivered <;> simp [h] <;> omega

/-- C8: the seller statistics revenue sums, over exactly the orders that
contain at least one of the vendor's line items, only the totals of that
vendor's own line items — never another seller's lines, even inside the
same order. -/
theorem vendorStats_revenue_only_own_lines (vid : Nat) (db : DB) :
    (getVendorOrderStats vid db).totalRevenue =
      ((db.orders.filter (fun o => o.items.any (fun it => it.vendorId == vid))).map
        (fun o => ((o.items.filter (fun it => it.vendorId == vid)).map
          (fun it => it.total)).sum)).sum := by
  unfold getVendorOrderStats
  rw [foldl_statsStep_totalRevenue]
  simp only [zero_add]
  have hfun : vendorRevenue vid = (fun o : Order =>
      ((o.items.filter (fun it => it.vendorId == vid)).map (fun it => it.total)).sum) :=
    funext (vendorRevenue_eq vid)
  rw [hfun]

/-- Splitting a mapped sum over a decidable predicate on the list. -/
theorem sum_map_filter_partition (f : Order → Rat) (p : Order → Prop) [DecidablePred p] :
    ∀ l : List Order,
      (l.map f).sum =
        ((l.filter (fun o => p o)).map f).sum +
        ((l.filter (fun o => ¬ p o)).map f).sum := by
  intro l
  induction l with
  | nil => simp
  | cons o rest ih =>
    by_cases h : p o <;> simp [List.filter_cons, h, ih] <;> try ring

/-- The six order statuses split any order list into the four counted
buckets plus the CONFIRMED and CANCELLED remainders. -/
theorem status_counts_partition :
    ∀ l : List Order,
      (l.filter (fun o => o.status = OrderStatus.pending)).length +
      (l.filter (fun o => o.status = OrderStatus.processing)).length +
      (l.filter (fun o => o.status = OrderStatus.shipped)).length +
      (l.filter (fun o => o.status = OrderStatus.delivered)).length +
      (l.filter (fun o => o.status = OrderStatus.confirmed)).length +
      (l.filter (fun o => o.status = OrderStatus.cancelled)).length = l.length := by
  intro l
  induction l with
  | nil => rfl
  | cons o rest ih =>
    simp only [List.filter_cons, List.length_cons]
    cases h : o.status <;> simp [h] <;> omega

/-- C10: the per-status buckets of the seller statistics cover only
PENDING, PROCESSING, SHIPPED and DELIVERED; CONFIRMED and CANCELLED
orders are counted in totalOrders but land in no bucket; and the revenue
sum still includes the vendor's line totals of CANCELLED orders. -/
theorem vendorStats_buckets_skip_confirmed_cancelled (vid : Nat) (db : DB) :
    (getVendorOrderStats vid db).totalOrders =
      (db.orders.filter (fun o => o.items.any (fun it => it.vendorId == vid))).length ∧
    (getVendorOrderStats vid db).pending =
      ((db.orders.filter (fun o => o.items.any (fun it => it.vendorId == vid))).filter
        (fun o => o.status = OrderStatus.pending)).length ∧
    (getVendorOrderStats vid db).processing =
      ((db.orders.filter (fun o => o.items.any (fun it => it.vendorId == vid))).filter
        (fun o => o.status = OrderStatus.processing)).length ∧
    (getVendorOrderStats vid db).shipped =
      ((db.orders.filter (fun o => o.items.any (fun it => it.vendorId == vid))).filter
        (fun o => o.status = OrderStatus.shipped)).length ∧
    (getVendorOrderStats vid db).delivered =
      ((db.orders.filter (fun o => o.items.any (fun it => it.vendorId == vid))).filter
        (fun o => o.status = OrderStatus.delivered)).length ∧
    (getVendorOrderStats vid db).pending + (getVendorOrderStats vid db).processing +
      (getVendorOrderStats vid db).shipped + (getVendorOrderStats vid db).delivered +
      ((db.orders.filter (fun o => o.items.any (fun it => it.vendorId == vid))).filter
        (fun o => o.status = OrderStatus.confirmed)).length +
      ((db.orders.filter (fun o => o.items.any (fun it => it.vendorId == vid))).filter
        (fun o => o.status = OrderStatus.cancelled)).length =
      (getVendorOrderStats vid db).totalOrders ∧
    (getVendorOrderStats vid db).totalRevenue =
      (((db.orders.filter (fun o => o.items.any (fun it => it.vendorId == vid))).filter
          (fun o => o.status = OrderStatus.cancelled)).map (vendorRevenue vid)).sum +
      (((db.orders.filter (fun o => o.items.any (fun it => it.vendorId == vid))).filter
          (fun o => ¬ o.status = OrderStatus.cancelled)).map (vendorRevenue vid)).sum := by
  refine ⟨?_, ?_, ?_, ?_, ?_, ?_, ?_⟩
  · unfold getVendorOrderStats
    rw [foldl_statsStep_totalOrders]
  · unfold getVendorOrderStats
    rw [foldl_statsStep_pending]
    simp
  · unfold getVendorOrderStats
    rw [foldl_statsStep_processing]
    simp
  · unfold getVendorOrderStats
    rw [foldl_statsStep_shipped]
    simp
  · unfold getVendorOrderStats
    rw [foldl_statsStep_delivered]
    simp
  · unfold getVendorOrderStats
    rw [foldl_statsStep_totalOrders, foldl_statsStep_pending, foldl_statsStep_processing,
      foldl_statsStep_shipped, foldl_statsStep_delivered]
    simp only [Nat.zero_add]
    exact status_counts_partition _
  · unfold getVendorOrderStats
    rw [foldl_statsStep_totalRevenue]
    simp only [zero_add]
    exact sum_map_filter_partition (vendorRevenue vid)
      (fun o => o.status = OrderStatus.cancelled) _

/-- Merging a guest line whose product is available into a cart whose
first matching line is e: the quantities are summed first, then clamped
to stock, and the price snapshot refreshed; lines before and after the
match are untouched. -/
theorem mergeGuestItem_existing :
    ∀ (ps : List Product) (pre post : List CartItem) (e : CartItem) (gi : GuestItem)
      (p : Product),
      findProduct ps gi.productId = some p → p.isActive = true → 1 ≤ p.stock →
      e.productId = gi.productId → (∀ x ∈ pre, x.productId ≠ gi.productId) →
      mergeGuestItem ps (pre ++ e :: post) gi =
        pre ++ { productId := e.productId
                 quantity := min (e.quantity + gi.quantity) p.stock
                 price := p.price } :: post := by
  intro ps pre post e gi p hfp ha hs he
  unfold mergeGuestItem
  rw [hfp]
  dsimp only
  rw [if_neg (by
    rintro (h | h)
    · rw [ha] at h; cases h
    · omega)]
  induction pre with
  | nil =>
    intro _
    rw [List.nil_append, List.nil_append, mergeInto]
    rw [if_pos (by simp [he])]
  | cons x pre ih =>
    intro hpre
    rw [List.cons_append, List.cons_append, mergeInto]
    rw [if_neg (by simp [hpre x (List.mem_cons_self x pre)])]
    rw [ih (fun y hy => hpre y (List.mem_cons_of_mem x hy))]

/-- A guest line whose product is missing, inactive or out of stock is
silently dropped by the merge loop. -/
theorem mergeGuestItem_drops :
    ∀ (ps : List Product) (items : List CartItem) (gi : GuestItem),
      (findProduct ps gi.productId = none ∨
        (∃ p, findProduct ps gi.productId = some p ∧
          (p.isActive = false ∨ p.stock < 1))) →
      mergeGuestItem ps items gi = items := by
  intro ps items gi h
  unfold mergeGuestItem
  rcases h with h | ⟨p, hfp, hcond⟩
  · rw [h]
  · rw [hfp]
    dsimp only
    rw [if_pos hcond]

/-- For a customer with no existing cart, syncCart stores exactly the
validated guest items as the cart. -/
theorem syncCart_no_cart :
    ∀ (uid : Nat) (gis : List GuestItem) (db : DB),
      findCart db uid = none →
      findCart (syncCart uid gis db) uid =
        some (validateCartItems db.products gis) := by
  intro uid gis db h
  unfold syncCart
  rw [h]
  unfold findCart
  unfold findCart at h
  rw [List.find?_append, Option.map_eq_none'.mp h]
  simp

/-- validateCartItems keeps exactly the guest lines whose product exists,
is active and has positive stock, clamping quantity to stock and taking
the current price. -/
theorem validateCartItems_eq :
    ∀ (ps : List Product) (gis : List GuestItem),
      validateCartItems ps gis = gis.filterMap (fun gi =>
        match findProduct ps gi.productId with
        | none => none
        | some p =>
          if p.isActive = true ∧ 0 < p.stock then
            some { productId := gi.productId
                   quantity := min gi.quantity p.stock
                   price := p.price }
          else none) := by
  intro ps gis
  induction gis with
  | nil => rfl
  | cons gi rest ih =>
    rw [validateCartItems, List.filterMap_cons]
    cases hfp : findProduct ps gi.productId with
    | none => rw [ih]
    | some p =>
      dsimp only
      by_cases hc : p.isActive = true ∧ 0 < p.stock
      · rw [if_pos hc, if_pos hc, ih]
      · rw [if_neg hc, if_neg hc, ih]

/-- C6: the guest-cart merge sums an existing line's quantity with the
guest quantity before clamping to current stock (never discarding the
pre-existing quantity except through the cap) and refreshes the price;
guest lines with missing, inactive or out-of-stock products are dropped;
and with no existing cart the validated guest items (clamped to stock,
zero-stock lines dropped) become the cart. -/
theorem syncCart_guest_merge :
    (∀ (ps : List Product) (pre post : List CartItem) (e : CartItem) (gi : GuestItem)
        (p : Product),
      findProduct ps gi.productId = some p → p.isActive = true → 1 ≤ p.stock →
      e.productId = gi.productId → (∀ x ∈ pre, x.productId ≠ gi.productId) →
      mergeGuestItem ps (pre ++ e :: post) gi =
        pre ++ { productId := e.productId
                 quantity := min (e.quantity + gi.quantity) p.stock
                 price := p.price } :: post) ∧
    (∀ (ps : List Product) (items : List CartItem) (gi : GuestItem),
      (findProduct ps gi.productId = none ∨
        (∃ p, findProduct ps gi.productId = some p ∧
          (p.isActive = false ∨ p.stock < 1))) →
      mergeGuestItem ps items gi = items) ∧
    (∀ (uid : Nat) (gis : List GuestItem) (db : DB),
      findCart db uid = none →
      findCart (syncCart uid gis db) uid =
        some (validateCartItems db.products gis)) ∧
    (∀ (ps : List Product) (gis : List GuestItem),
      validateCartItems ps gis = gis.filterMap (fun gi =>
        match findProduct ps gi.productId with
        | none => none
        | some p =>
          if p.isActive = true ∧ 0 < p.stock then
            some { productId := gi.productId
                   quantity := min gi.quantity p.stock
                   price := p.price }
          else none)) :=
  ⟨mergeGuestItem_existing, mergeGuestItem_drops, syncCart_no_cart, validateCartItems_eq⟩

/-- Witness for C6: merging guest qty 5 of P into an existing line qty 1
with stock 3 caps the summed quantity at 3 (not 6) and refreshes the
price; a guest line for the inactive product Q is dropped; and a guest
cart synced for a customer with no cart becomes the clamped validated
items. -/
theorem syncCart_guest_merge_witness :
    mergeGuestItem [prodP] [⟨5, 1, 6⟩] ⟨5, 5⟩ = [⟨5, 3, 7⟩] ∧
    mergeGuestItem [prodQ] [⟨5, 1, 6⟩] ⟨6, 2⟩ = [⟨5, 1, 6⟩] ∧
    findCart (syncCart 9 [⟨5, 5⟩] dbNoCart) 9 = some [⟨5, 3, 7⟩] ∧
    validateCartItems [prodP, prodQ] [⟨5, 5⟩, ⟨6, 2⟩] = [⟨5, 3, 7⟩] := by
  refine ⟨?_, ?_, ?_, ?_⟩
  · have h := syncCart_guest_merge.1 [prodP] [] [] ⟨5, 1, 6⟩ ⟨5, 5⟩ prodP
      (by decide) (by decide) (by decide) (by decide) (by simp)
    exact h.trans (by decide)
  · exact syncCart_guest_merge.2.1 [prodQ] [⟨5, 1, 6⟩] ⟨6, 2⟩
      (Or.inr ⟨prodQ, by decide, by decide⟩)
  · have h := syncCart_guest_merge.2.2.1 9 [⟨5, 5⟩] dbNoCart (by decide)
    exact h.trans (by decide)
  · have h := syncCart_guest_merge.2.2.2 [prodP, prodQ] [⟨5, 5⟩, ⟨6, 2⟩]
    exact h.trans (by decide)

end KmerCart
